import Mathlib

/-!
Verification development for the Arty DDR3 SoC description
(src/arty_ddr3.py). The file embeds, as Lean definitions, the clock/reset
generation logic of the `_CRG` module, the calibration reset countdown, the
PLL output table, the CSR address map and the SoC composition choices of
`BaseSoC`, together with a model of the SDRAM timing resolution performed
by the litex `SDRAMModule` base class (library code that is not part of
this repository; it is modelled from the specification where noted).
-/

namespace ArtyDDR3

/-! CRG reset synchronization, from `_CRG.__init__`. -/

/-- Reset fed to the system clock domain (src/arty_ddr3.py line 87):
AsyncResetSynchronizer(self.cd_sys, ~pll_locked | ~rst), where rst is the
cpu_reset pin. -/
def cd_sys_reset (pll_locked rst_pin : Bool) : Bool :=
  (!pll_locked) || (!rst_pin)

/-- Reset fed to the 200 MHz calibration clock domain (src/arty_ddr3.py
line 88): AsyncResetSynchronizer(self.cd_clk200, ~pll_locked | rst). -/
def cd_clk200_reset (pll_locked rst_pin : Bool) : Bool :=
  (!pll_locked) || rst_pin

/-- The cpu_reset push button of the board is active low, so the external
reset request is asserted exactly when the pin reads 0. -/
def external_reset_request (rst_pin : Bool) : Bool :=
  !rst_pin

/-- The reset signals of the two reset-bearing clock domains; cd_sys4x and
cd_sys4x_dqs are declared reset_less in the source (lines 41-42) and carry
no reset. -/
def resetBearingResets : List (Bool → Bool → Bool) :=
  [cd_sys_reset, cd_clk200_reset]

/-! Calibration reset countdown, from `_CRG.__init__` lines 91-99: a 4-bit
counter with reset value 15 decrementing in the clk200 domain while
nonzero, and an ic_reset register with reset value 1 cleared once the
counter reaches zero. The 4-bit decrement is embedded as addition of 15
modulo 16, the two-complement semantics of `reset_counter - 1` on a 4-bit
signal. -/

structure CalState where
  reset_counter : Nat
  ic_reset : Bool
  deriving Repr, DecidableEq

/-- Power-on state of the countdown registers: Signal(4, reset=15) and
Signal(reset=1). -/
def calInit : CalState :=
  ⟨15, true⟩

/-- One clk200 tick of the synchronous process of lines 93-98: If
reset_counter is not 0 it is decremented (4-bit wrap-around semantics),
otherwise ic_reset is cleared. -/
def calStep (s : CalState) : CalState :=
  if s.reset_counter ≠ 0 then
    { s with reset_counter := (s.reset_counter + 15) % 16 }
  else
    { s with ic_reset := false }

/-- Closed form of the countdown run: after t ticks the counter holds
15 - t (truncated) and ic_reset is still asserted exactly when t ≤ 15. -/
lemma calRun_closed (t : Nat) :
    calStep^[t] calInit = ⟨15 - t, decide (t ≤ 15)⟩ := by
  induction t with
  | zero => rfl
  | succ n ih =>
    rw [Function.iterate_succ_apply', ih]
    rcases Nat.lt_or_ge n 15 with hn | hn
    · have h1 : (15 - n : Nat) ≠ 0 := by omega
      simp only [calStep]
      rw [if_pos h1]
      simp only [CalState.mk.injEq, decide_eq_decide]
      omega
    · have h1 : ¬ ((15 - n : Nat) ≠ 0) := by omega
      have h2 : ¬ (n + 1 ≤ 15) := by omega
      simp only [calStep]
      rw [if_neg h1]
      simp only [CalState.mk.injEq, h2, decide_eq_false_iff_not]
      constructor
      · omega
      · simp [h2]

/-- C2: the calibration countdown starts at 15, loses exactly one per
clk200 tick while nonzero (counter after t ticks is 15 - t, truncated at
zero), and the IDELAYCTRL reset gate ic_reset is asserted exactly while
t ≤ 15: true for exactly the first 15 ticks after lock and permanently
false from tick 16 on, never re-arming. -/
theorem cal_countdown_one_shot (t : Nat) :
    (calStep^[t] calInit).reset_counter = 15 - t ∧
    ((calStep^[t] calInit).ic_reset = true ↔ t ≤ 15) := by
  rw [calRun_closed]
  show 15 - t = 15 - t ∧ (decide (t ≤ 15) = true ↔ t ≤ 15)
  simp

/-- C10: the 4-bit countdown never wraps or underflows: at every reachable
state the counter is at most 15, it never increases across a tick, and
each tick changes it exactly as truncated subtraction by one would — the
modular decrement, guarded by the nonzero test, never executes at zero. -/
theorem cal_counter_no_wrap (t : Nat) :
    (calStep^[t] calInit).reset_counter ≤ 15 ∧
    (calStep^[t + 1] calInit).reset_counter ≤ (calStep^[t] calInit).reset_counter ∧
    (calStep^[t + 1] calInit).reset_counter = (calStep^[t] calInit).reset_counter - 1 := by
  rw [calRun_closed, calRun_closed]
  show 15 - t ≤ 15 ∧ 15 - (t + 1) ≤ 15 - t ∧ 15 - (t + 1) = 15 - t - 1
  omega

/-- C1: with the external reset request read off the active-low cpu_reset
pin, the system domain reset is asserted exactly when the PLL is unlocked
or the request is asserted, and the calibration domain reset exactly when
the PLL is unlocked or the request is de-asserted — the two gated domains
couple to opposite polarities of the request. -/
theorem crg_reset_polarity (pll_locked rst_pin : Bool) :
    cd_sys_reset pll_locked rst_pin =
      ((!pll_locked) || external_reset_request rst_pin) ∧
    cd_clk200_reset pll_locked rst_pin =
      ((!pll_locked) || !(external_reset_request rst_pin)) := by
  cases pll_locked <;> cases rst_pin <;>
    simp [cd_sys_reset, cd_clk200_reset, external_reset_request]

/-- C4: at every time step at which the PLL does not report lock, every
reset-bearing domain of the CRG has its reset asserted — no domain is
released from reset before lock. -/
theorem reset_asserted_before_lock (pll_locked rst_pin : Nat → Bool)
    (t : Nat) (h : pll_locked t = false) :
    ∀ f ∈ resetBearingResets, f (pll_locked t) (rst_pin t) = true := by
  intro f hf
  simp only [resetBearingResets, List.mem_cons, List.not_mem_nil,
    or_false] at hf
  rcases hf with rfl | rfl
  · simp [cd_sys_reset, h]
  · simp [cd_clk200_reset, h]

/-- Witness for C4 at the constant traces pll_locked = false, rst_pin =
true, at time 0. -/
theorem reset_asserted_before_lock_witness :
    ((fun _ : Nat => false) 0 = false) ∧
    ∀ f ∈ resetBearingResets,
      f ((fun _ : Nat => false) 0) ((fun _ : Nat => true) 0) = true :=
  ⟨rfl, reset_asserted_before_lock (fun _ => false) (fun _ => true) 0 rfl⟩

/-! PLL output table of the PLLE2_BASE instance, lines 54-86: reference
clock 100 MHz (CLKIN1_PERIOD 10.0 ns), CLKFBOUT_MULT 16 and DIVCLK_DIVIDE 1
give a 1600 MHz VCO; each buffered output is the VCO divided by its
CLKOUTn_DIVIDE, at its CLKOUTn_PHASE. -/

/-- Reference clock frequency in Hz (clk100, CLKIN1_PERIOD 10.0 ns). -/
def ref_clk_freq : ℚ := 100000000

/-- Internal VCO frequency: reference times CLKFBOUT_MULT over
DIVCLK_DIVIDE. -/
def pll_vco_freq : ℚ := ref_clk_freq * 16 / 1

/-- Divide ratio and phase of each buffered PLL output fed to a clock
domain, in source order: CLKOUT0 (sys, divide 16, phase 0), CLKOUT1
(sys4x, divide 4, phase 0), CLKOUT2 (sys4x_dqs, divide 4, phase 90),
CLKOUT3 (clk200, divide 8, phase 0). -/
def clkout_table : List (String × ℚ × ℚ) :=
  [("sys", 16, 0), ("sys4x", 4, 0), ("sys4x_dqs", 4, 90), ("clk200", 8, 0)]

/-- Frequency/phase of each generated clock domain: VCO frequency divided
by the per-output divide ratio, at the configured phase. -/
def crg_domain_clocks : List (String × ℚ × ℚ) :=
  clkout_table.map (fun x => (x.1, pll_vco_freq / x.2.1, x.2.2))

/-- C5: the CRG deterministically produces exactly the four domain clocks
100 MHz at 0 degrees (sys), 400 MHz at 0 degrees (sys4x), 400 MHz at 90
degrees (sys4x_dqs) and 200 MHz at 0 degrees (clk200) from the 100 MHz
reference and 1600 MHz VCO with the fixed divide/phase table. -/
theorem crg_clocks_deterministic :
    crg_domain_clocks =
      [("sys", 100000000, 0), ("sys4x", 400000000, 0),
       ("sys4x_dqs", 400000000, 90), ("clk200", 200000000, 0)] := by
  norm_num [crg_domain_clocks, clkout_table, pll_vco_freq, ref_clk_freq]

/-! CSR address map and SoC composition, class BaseSoC. -/

/-- The four explicit CSR offsets assigned in BaseSoC.csr_map, lines
105-110. -/
def explicit_csr_map : List (String × Nat) :=
  [("ddrphy", 17), ("dna", 18), ("xadc", 19), ("analyzer", 20)]

/-- C6: the four explicitly assigned peripheral offsets are pairwise
distinct, and disjoint from every offset of the inherited base-framework
map, the latter modelled from the spec as a set of already reserved
offsets below the floor value 17 (SoCSDRAM.csr_map is litex library code
not under src/). -/
theorem csr_offsets_disjoint (inherited : List Nat)
    (hfloor : ∀ o ∈ inherited, o < 17) :
    (explicit_csr_map.map Prod.snd).Nodup ∧
    ∀ e ∈ explicit_csr_map.map Prod.snd, e ∉ inherited := by
  refine ⟨by decide, ?_⟩
  intro e he hmem
  have hlt := hfloor e hmem
  have h17 : 17 ≤ e := by
    simp only [explicit_csr_map, List.map_cons, List.map_nil,
      List.mem_cons, List.not_mem_nil, or_false] at he
    omega
  omega

/-- Witness for C6 with a concrete inherited offset list below the
floor. -/
theorem csr_offsets_disjoint_witness :
    (∀ o ∈ [0, 1, 2, 3, 8, 9, 16], o < 17) ∧
    ((explicit_csr_map.map Prod.snd).Nodup ∧
      ∀ e ∈ explicit_csr_map.map Prod.snd, e ∉ [0, 1, 2, 3, 8, 9, 16]) :=
  ⟨by decide, csr_offsets_disjoint [0, 1, 2, 3, 8, 9, 16] (by decide)⟩

/-- Bus-side state of the composed SoC: the declared processor type and
the registered wishbone masters. -/
structure SoCBus where
  cpu_type : Option String
  wb_masters : List String
  deriving Repr, DecidableEq

/-- Modelled from the spec: add_wb_master of the litex SoC framework (not
under src/) registers a bus master; exactly one master may be registered
per composition, so registering a second one fails. -/
def add_wb_master (s : SoCBus) (m : String) : Option SoCBus :=
  match s.wb_masters with
  | [] => some { s with wb_masters := [m] }
  | _ :: _ => none

/-- Bus composition performed by BaseSoC.__init__: cpu_type None (line
118, no on-chip processor core) and a single add_wb_master call with the
UARTWishboneBridge wishbone port (lines 136-137). -/
def baseSoC_bus : Option SoCBus :=
  add_wb_master { cpu_type := none, wb_masters := [] } "uart_bridge_wishbone"

/-- C7: the composition registers exactly one bus master, the serial
bridge; no processor core is instantiated; and registering any second
master on the composed state fails. -/
theorem single_bus_master :
    ∃ s, baseSoC_bus = some s ∧ s.wb_masters = ["uart_bridge_wishbone"] ∧
      s.cpu_type = none ∧ ∀ m, add_wb_master s m = none :=
  ⟨⟨none, ["uart_bridge_wishbone"]⟩, rfl, rfl, rfl, fun _ => rfl⟩

/-! Debug tap (litescope analyzer), lines 140-218. The analyzer signal
list built at lines 141-217 names fifteen DFI signals for each of the two
active phases p0 and p1 (phases p2 and p3 commented out); the registration
of the analyzer submodule itself (line 218) is commented out in the
source, so the shipped composition has the tap disabled. -/

/-- The ordered analyzer signal list of lines 141-217 (phases p0 and p1;
p2/p3 entries are commented out in the source). -/
def analyzer_signals : List String :=
  ["dfi.p0.address", "dfi.p0.bank", "dfi.p0.cas_n", "dfi.p0.cs_n",
   "dfi.p0.ras_n", "dfi.p0.we_n", "dfi.p0.cke", "dfi.p0.odt",
   "dfi.p0.reset_n", "dfi.p0.wrdata", "dfi.p0.wrdata_en",
   "dfi.p0.wrdata_mask", "dfi.p0.rddata_en", "dfi.p0.rddata",
   "dfi.p0.rddata_valid",
   "dfi.p1.address", "dfi.p1.bank", "dfi.p1.cas_n", "dfi.p1.cs_n",
   "dfi.p1.ras_n", "dfi.p1.we_n", "dfi.p1.cke", "dfi.p1.odt",
   "dfi.p1.reset_n", "dfi.p1.wrdata", "dfi.p1.wrdata_en",
   "dfi.p1.wrdata_mask", "dfi.p1.rddata_en", "dfi.p1.rddata",
   "dfi.p1.rddata_valid"]

/-- Submodules registered on the composed SoC, parameterized by whether
the analyzer registration (line 218) is enabled: crg (line 123), dna
(line 124), xadc (line 125), ddrphy (line 128) always; analyzer only when
enabled. -/
def soc_submodules (analyzer_enabled : Bool) : List String :=
  ["crg", "dna", "xadc", "ddrphy"] ++
    (if analyzer_enabled then ["analyzer"] else [])

/-- Signals contributed to the capture artifact: the analyzer signal list
when the tap is registered, nothing otherwise. -/
def captured_signals (analyzer_enabled : Bool) : List String :=
  if analyzer_enabled then analyzer_signals else []

/-- CSR offsets actually consumed by a registered submodule; the map entry
of an unregistered submodule stays a reserved, unused slot. -/
def consumed_csr_offsets (analyzer_enabled : Bool) : List Nat :=
  (explicit_csr_map.filter
    (fun p => (soc_submodules analyzer_enabled).contains p.1)).map Prod.snd

/-- C9: with the debug tap disabled the composition captures zero signals
and registers no analyzer submodule at all; it consumes only the offsets
17, 18 and 19, leaving the reserved analyzer slot 20 unused; and the
enabled composition differs exactly by the analyzer submodule and its
offset — everything else is unchanged. -/
theorem debug_tap_disabled_noop :
    captured_signals false = [] ∧
    "analyzer" ∉ soc_submodules false ∧
    consumed_csr_offsets false = [17, 18, 19] ∧
    consumed_csr_offsets true = consumed_csr_offsets false ++ [20] ∧
    soc_submodules true = soc_submodules false ++ ["analyzer"] ∧
    captured_signals true = analyzer_signals ∧
    ("analyzer", 20) ∈ explicit_csr_map := by
  refine ⟨rfl, by decide, by decide, by decide, rfl, rfl, by decide⟩

/-! Memory timing specification: the constants of class MT41K128M16
(lines 23-35) and a model of the timing resolution done by its litex base
class SDRAMModule, which is library code not contained in this
repository. -/

/-- Geometry of a memory device: bank, row and column counts. -/
structure GeomSettings where
  nbanks : Nat
  nrows : Nat
  ncols : Nat
  deriving Repr, DecidableEq

/-- Device timing constants, each a duration in nanoseconds. -/
structure TimingsNs where
  tRP : ℚ
  tRCD : ℚ
  tWR : ℚ
  tWTR : ℚ
  tREFI : ℚ
  tRFC : ℚ
  deriving Repr, DecidableEq

/-- Device timings resolved to clock cycles. -/
structure TimingsCycles where
  tRP : ℤ
  tRCD : ℤ
  tWR : ℤ
  tWTR : ℤ
  tREFI : ℤ
  tRFC : ℤ
  deriving Repr, DecidableEq

/-- Tests whether n is a power of two (and hence at least 1). -/
def isPowerOfTwo (n : Nat) : Bool :=
  n != 0 && (n &&& (n - 1)) == 0

/-- Modelled from the spec: the litex SDRAMModule base class converts a
nanosecond duration to clock cycles as the ceiling of (nanosecond value
times clock frequency), the frequency being in Hz, hence the division by
10^9. -/
def ns_to_cycles (clk_freq : Nat) (t_ns : ℚ) : ℤ :=
  ⌈t_ns * clk_freq / 1000000000⌉

/-- Modelled from the spec: SDRAMModule construction (litex library code
not under src/) at a clock frequency and a burst ratio sanity-asserts that
each geometry count is a power of two and every timing nonnegative —
failing fast (none) otherwise — and resolves each nanosecond timing to
cycles, rounding up. -/
def sdram_module (clk_freq : Nat) (rate : String) (g : GeomSettings)
    (t : TimingsNs) : Option (GeomSettings × String × TimingsCycles) :=
  if isPowerOfTwo g.nbanks ∧ isPowerOfTwo g.nrows ∧ isPowerOfTwo g.ncols ∧
      0 ≤ t.tRP ∧ 0 ≤ t.tRCD ∧ 0 ≤ t.tWR ∧ 0 ≤ t.tWTR ∧ 0 ≤ t.tREFI ∧
      0 ≤ t.tRFC then
    some (g, rate,
      ⟨ns_to_cycles clk_freq t.tRP, ns_to_cycles clk_freq t.tRCD,
       ns_to_cycles clk_freq t.tWR, ns_to_cycles clk_freq t.tWTR,
       ns_to_cycles clk_freq t.tREFI, ns_to_cycles clk_freq t.tRFC⟩)
  else
    none

/-- Geometry of MT41K128M16 (lines 26-28). -/
def MT41K128M16_geom : GeomSettings :=
  ⟨8, 16384, 1024⟩

/-- Nanosecond timings of MT41K128M16, -7 speedgrade (lines 30-35);
tREFI is 64 ms over 8192 refreshes. -/
def MT41K128M16_timings : TimingsNs :=
  ⟨13.75, 13.75, 15, 8, 64 * 1000 * 1000 / 8192, 160⟩

/-- System clock frequency of BaseSoC, line 116. -/
def soc_clk_freq : Nat := 100 * 1000000

/-- C3: for every device geometry whose bank, row and column counts are
each a power of two (hence at least 1), constructing the timing
specification with the MT41K128M16 timing constants at any clock frequency
and burst ratio succeeds, and every derived cycle-count value is the
ceiling — never the floor — of (nanosecond value times clock frequency). -/
theorem sdram_module_valid_geometry (clk_freq : Nat) (rate : String)
    (g : GeomSettings) (hb : isPowerOfTwo g.nbanks = true)
    (hr : isPowerOfTwo g.nrows = true) (hc : isPowerOfTwo g.ncols = true) :
    sdram_module clk_freq rate g MT41K128M16_timings =
      some (g, rate,
        ⟨⌈MT41K128M16_timings.tRP * clk_freq / 1000000000⌉,
         ⌈MT41K128M16_timings.tRCD * clk_freq / 1000000000⌉,
         ⌈MT41K128M16_timings.tWR * clk_freq / 1000000000⌉,
         ⌈MT41K128M16_timings.tWTR * clk_freq / 1000000000⌉,
         ⌈MT41K128M16_timings.tREFI * clk_freq / 1000000000⌉,
         ⌈MT41K128M16_timings.tRFC * clk_freq / 1000000000⌉⟩) := by
  have ht : (0 : ℚ) ≤ MT41K128M16_timings.tRP ∧
      (0 : ℚ) ≤ MT41K128M16_timings.tRCD ∧
      (0 : ℚ) ≤ MT41K128M16_timings.tWR ∧
      (0 : ℚ) ≤ MT41K128M16_timings.tWTR ∧
      (0 : ℚ) ≤ MT41K128M16_timings.tREFI ∧
      (0 : ℚ) ≤ MT41K128M16_timings.tRFC := by
    refine ⟨?_, ?_, ?_, ?_, ?_, ?_⟩ <;> norm_num [MT41K128M16_timings]
  obtain ⟨h1, h2, h3, h4, h5, h6⟩ := ht
  simp only [sdram_module, ns_to_cycles, hb, hr, hc, h1, h2, h3, h4, h5, h6,
    and_self, if_pos, true_and, and_true, if_true]

/-- Witness for C3 at the MT41K128M16 geometry of the source, the 100 MHz
system clock and the 1:4 burst ratio of line 129; the resolved cycle
counts evaluate to tRP 2, tRCD 2, tWR 2, tWTR 1, tREFI 782, tRFC 16. -/
theorem sdram_module_valid_geometry_witness :
    (isPowerOfTwo MT41K128M16_geom.nbanks = true ∧
      isPowerOfTwo MT41K128M16_geom.nrows = true ∧
      isPowerOfTwo MT41K128M16_geom.ncols = true) ∧
    sdram_module soc_clk_freq "1:4" MT41K128M16_geom MT41K128M16_timings =
      some (MT41K128M16_geom, "1:4",
        ⟨⌈MT41K128M16_timings.tRP * soc_clk_freq / 1000000000⌉,
         ⌈MT41K128M16_timings.tRCD * soc_clk_freq / 1000000000⌉,
         ⌈MT41K128M16_timings.tWR * soc_clk_freq / 1000000000⌉,
         ⌈MT41K128M16_timings.tWTR * soc_clk_freq / 1000000000⌉,
         ⌈MT41K128M16_timings.tREFI * soc_clk_freq / 1000000000⌉,
         ⌈MT41K128M16_timings.tRFC * soc_clk_freq / 1000000000⌉⟩) :=
  ⟨⟨by decide, by decide, by decide⟩,
    sdram_module_valid_geometry soc_clk_freq "1:4" MT41K128M16_geom
      (by decide) (by decide) (by decide)⟩

/-- The concrete cycle counts resolved for the source configuration:
MT41K128M16 at 100 MHz gives tRP 2, tRCD 2, tWR 2, tWTR 1, tREFI 782 and
tRFC 16 cycles, each rounded up from the nanosecond value. -/
theorem sdram_module_source_cycles :
    sdram_module soc_clk_freq "1:4" MT41K128M16_geom MT41K128M16_timings =
      some (MT41K128M16_geom, "1:4", ⟨2, 2, 2, 1, 782, 16⟩) := by
  have e1 : ns_to_cycles soc_clk_freq MT41K128M16_timings.tRP = 2 := by
    unfold ns_to_cycles
    rw [Int.ceil_eq_iff]
    norm_num [MT41K128M16_timings, soc_clk_freq]
  have e2 : ns_to_cycles soc_clk_freq MT41K128M16_timings.tRCD = 2 := by
    unfold ns_to_cycles
    rw [Int.ceil_eq_iff]
    norm_num [MT41K128M16_timings, soc_clk_freq]
  have e3 : ns_to_cycles soc_clk_freq MT41K128M16_timings.tWR = 2 := by
    unfold ns_to_cycles
    rw [Int.ceil_eq_iff]
    norm_num [MT41K128M16_timings, soc_clk_freq]
  have e4 : ns_to_cycles soc_clk_freq MT41K128M16_timings.tWTR = 1 := by
    unfold ns_to_cycles
    rw [Int.ceil_eq_iff]
    norm_num [MT41K128M16_timings, soc_clk_freq]
  have e5 : ns_to_cycles soc_clk_freq MT41K128M16_timings.tREFI = 782 := by
    unfold ns_to_cycles
    rw [Int.ceil_eq_iff]
    norm_num [MT41K128M16_timings, soc_clk_freq]
  have e6 : ns_to_cycles soc_clk_freq MT41K128M16_timings.tRFC = 16 := by
    unfold ns_to_cycles
    rw [Int.ceil_eq_iff]
    norm_num [MT41K128M16_timings, soc_clk_freq]
  have hc : isPowerOfTwo MT41K128M16_geom.nbanks = true ∧
      isPowerOfTwo MT41K128M16_geom.nrows = true ∧
      isPowerOfTwo MT41K128M16_geom.ncols = true ∧
      (0 : ℚ) ≤ MT41K128M16_timings.tRP ∧
      (0 : ℚ) ≤ MT41K128M16_timings.tRCD ∧
      (0 : ℚ) ≤ MT41K128M16_timings.tWR ∧
      (0 : ℚ) ≤ MT41K128M16_timings.tWTR ∧
      (0 : ℚ) ≤ MT41K128M16_timings.tREFI ∧
      (0 : ℚ) ≤ MT41K128M16_timings.tRFC := by
    refine ⟨by decide, by decide, by decide, ?_, ?_, ?_, ?_, ?_, ?_⟩ <;>
      norm_num [MT41K128M16_timings]
  unfold sdram_module
  rw [if_pos hc, e1, e2, e3, e4, e5, e6]

/-- C8: constructing the timing specification with an invalid geometry (in
particular a non-power-of-two bank count) or any negative timing value
fails fast, producing no degraded result. -/
theorem sdram_module_invalid_fails (clk_freq : Nat) (rate : String)
    (g : GeomSettings) (t : TimingsNs)
    (h : isPowerOfTwo g.nbanks = false ∨ t.tRP < 0 ∨ t.tRCD < 0 ∨
      t.tWR < 0 ∨ t.tWTR < 0 ∨ t.tREFI < 0 ∨ t.tRFC < 0) :
    sdram_module clk_freq rate g t = none := by
  unfold sdram_module
  rw [if_neg]
  intro hcond
  obtain ⟨hb, _, _, h1, h2, h3, h4, h5, h6⟩ := hcond
  rcases h with h | h | h | h | h | h | h
  · rw [hb] at h; cases h
  · exact absurd h1 (not_le.mpr h)
  · exact absurd h2 (not_le.mpr h)
  · exact absurd h3 (not_le.mpr h)
  · exact absurd h4 (not_le.mpr h)
  · exact absurd h5 (not_le.mpr h)
  · exact absurd h6 (not_le.mpr h)

/-- Witness for C8 at a bank count of 6, which is not a power of two. -/
theorem sdram_module_invalid_fails_witness :
    (isPowerOfTwo (GeomSettings.mk 6 16384 1024).nbanks = false ∨
      MT41K128M16_timings.tRP < 0 ∨ MT41K128M16_timings.tRCD < 0 ∨
      MT41K128M16_timings.tWR < 0 ∨ MT41K128M16_timings.tWTR < 0 ∨
      MT41K128M16_timings.tREFI < 0 ∨ MT41K128M16_timings.tRFC < 0) ∧
    sdram_module soc_clk_freq "1:4" (GeomSettings.mk 6 16384 1024)
      MT41K128M16_timings = none :=
  ⟨Or.inl (by decide),
    sdram_module_invalid_fails soc_clk_freq "1:4"
      (GeomSettings.mk 6 16384 1024) MT41K128M16_timings
      (Or.inl (by decide))⟩

end ArtyDDR3
